import Mathlib

set_option maxRecDepth 16384

/-!
Verification of the zakhaarif-sandbox service-worker request-resolution core:
the policy engine (`fetchCore`, from `src/lib/fetchCore.ts`), the shared
response/policy contracts (`serviceWorkerMeta.ts`), and the origin router
(`createFetchHandler`, from `src/lib/fetchHandler.ts`).

Modelling conventions:
* A `Response` is a record of status, status text, an ordered header list and
  a string body.  Appending to `Headers` is list append; `Headers.get` is a
  case-insensitive first-match lookup.
* A promise that may reject is modelled as `Except String α`; the `String`
  carried by `.error` is the stringified rejection cause (the code only ever
  consumes causes through JavaScript `String(err)`).
* The network resolver `fetch` accepts either a `Request` or a plain URL
  string (`RequestInfo`).  The cache resolver is total (the host contract
  states it never rejects: a miss is `null`).
* JavaScript builtins used by the code (`parseInt`, `String.prototype.trim`,
  `String.prototype.split`, `String.prototype.startsWith`, `URLSearchParams`,
  `decodeURIComponent`, `TextEncoder.encode().length`, object spread) are
  modelled by executable Lean functions whose names start with `js`, or that
  carry a doc comment naming the builtin.
-/

namespace Sandbox

/-- Lowercase an ASCII letter; other characters are unchanged.  Used for
case-insensitive header-name comparison (the `Headers` web API). -/
def lowerChar (c : Char) : Char :=
  if 'A' ≤ c ∧ c ≤ 'Z' then Char.ofNat (c.toNat + 32) else c

/-- Case-fold a header name, as the `Headers` web API does. -/
def lowerStr (s : String) : String := ⟨s.data.map lowerChar⟩

/-- `Headers.get`: case-insensitive lookup, first matching entry. -/
def headersGet (hs : List (String × String)) (name : String) : Option String :=
  (hs.find? (fun p => lowerStr p.1 = lowerStr name)).map (·.2)

/-- A fetch `Response`: status, status text, ordered header list, body.
The engine treats the body as opaque; we use a `String`. -/
structure Response where
  status : Nat
  statusText : String
  headers : List (String × String)
  body : String
deriving DecidableEq, Repr

/-- `Response.ok` of the fetch API: status in the 2xx range. -/
def Response.ok (r : Response) : Bool := 200 ≤ r.status ∧ r.status ≤ 299

/-- A fetch `Request`: absolute URL (query string included) and headers.
Only these two fields are consulted by the core. -/
structure Request where
  url : String
  headers : List (String × String)
deriving DecidableEq, Repr

/-- `RequestInfo`: the argument type of `fetch` — a URL string or a
`Request`. -/
inductive RequestInfo where
  | url (s : String)
  | req (r : Request)
deriving DecidableEq, Repr

/-- The network resolver: `(request) -> Promise<Response>`, may reject. -/
def NetworkFetch : Type := RequestInfo → Except String Response

/-- The cache resolver: `(url, clientId) -> Promise<Response | null>`;
per the host contract it never rejects, so it is total. -/
def CacheResolver : Type := String → String → Option Response

/-! ### serviceWorkerMeta.ts -/

def serviceWorkerCacheHitHeader : String × String := ("X-Cache-Hit", "SW HIT")

def serviceWorkerErrorCatchHeader : String := "Sw-Net-Err"

def serviceWorkerPolicyHeader : String := "Sw-Policy"

def NETWORK_FIRST_POLICY : Int := 1
def NETWORK_ONLY_POLICY : Int := 2
def CACHE_FIRST_POLICY : Int := 3
def CACHE_ONLY_POLICY : Int := 4

/-- `cacheHit(response)`: appends (does not replace) the
`X-Cache-Hit: SW HIT` header and returns the response. -/
def cacheHit (response : Response) : Response :=
  { response with headers := response.headers ++ [serviceWorkerCacheHitHeader] }

/-- The constant 404 response (`NOT_FOUND_RESPONSE`). -/
def NOT_FOUND_RESPONSE : Response :=
  { status := 404, statusText := "NOT FOUND", headers := [], body := "not found" }

/-- `errorResponse(err)`: a 500 response whose body is `String(err)` and
which carries the `Sw-Net-Err: 1` header. -/
def errorResponse (err : String) : Response :=
  { status := 500
    statusText := "INTERNAL SERVER ERROR"
    headers := [(serviceWorkerErrorCatchHeader, "1")]
    body := err }

/-! ### JavaScript builtins used by fetchCore -/

/-- Characters stripped by `String.prototype.trim` / skipped by `parseInt`
(the common ECMAScript WhiteSpace and LineTerminator characters). -/
def jsWhitespace (c : Char) : Bool :=
  c = ' ' ∨ c = '\t' ∨ c = '\n' ∨ c = '\r' ∨
  c = Char.ofNat 0x0b ∨ c = Char.ofNat 0x0c ∨ c = Char.ofNat 0xa0 ∨ c = Char.ofNat 0xfeff

/-- Digit list to number, most significant first. -/
def digitsToNat (ds : List Char) : Nat :=
  ds.foldl (fun acc c => acc * 10 + (c.toNat - 48)) 0

/-- ECMAScript `parseInt(s, 10)`: skip leading whitespace, optional sign,
then a maximal run of decimal digits; `none` (NaN) if that run is empty. -/
def jsParseInt (s : String) : Option Int :=
  let cs := s.data.dropWhile jsWhitespace
  let signApplied : Int → Int × List Char → Option Int := fun sgn p =>
    if p.2.takeWhile Char.isDigit = [] then none
    else some (sgn * (digitsToNat (p.2.takeWhile Char.isDigit) : Int))
  match cs with
  | '-' :: t => signApplied (-1) (1, t)
  | '+' :: t => signApplied 1 (1, t)
  | t => signApplied 1 (1, t)

/-! ### fetchCore.ts -/

/-- `CACHE_FIRST = policies.cacheFirst["Sw-Policy"]`, i.e. `"3"`. -/
def CACHE_FIRST : String := "3"

/-- `safeRequest`: await the network promise, converting a rejection into
`errorResponse`. -/
def safeRequest (request : Except String Response) : Response :=
  match request with
  | .ok r => r
  | .error err => errorResponse err

/-- The policy string read by `fetchCore`:
`request.headers.get(policyHeader) || CACHE_FIRST` (JavaScript `||`, so a
present-but-empty header value also falls back to `CACHE_FIRST`). -/
def requestPolicyString (request : Request) : String :=
  match headersGet request.headers serviceWorkerPolicyHeader with
  | some s => if s = "" then CACHE_FIRST else s
  | none => CACHE_FIRST

/-- Body of the `NETWORK_ONLY_POLICY` case of `fetchCore`'s switch. -/
def networkOnlyBranch (request : Request) (networkFetch : NetworkFetch) : Response :=
  safeRequest (networkFetch (.req request))

/-- Body of the `NETWORK_FIRST_POLICY` case of `fetchCore`'s switch. -/
def networkFirstBranch (request : Request) (networkFetch : NetworkFetch)
    (getFile : CacheResolver) (targetClientId : String) : Response :=
  match networkFetch (.req request) with
  | .ok res => res
  | .error err =>
    match getFile request.url targetClientId with
    | some cached => if cached.ok then cacheHit cached else errorResponse err
    | none => errorResponse err

/-- Body of the `CACHE_ONLY_POLICY` case of `fetchCore`'s switch. -/
def cacheOnlyBranch (request : Request) (getFile : CacheResolver)
    (targetClientId : String) : Response :=
  match getFile request.url targetClientId with
  | some cached => cacheHit cached
  | none => NOT_FOUND_RESPONSE

/-- Body of the `default` (cache-first) case of `fetchCore`'s switch. -/
def cacheFirstBranch (request : Request) (networkFetch : NetworkFetch)
    (getFile : CacheResolver) (targetClientId : String) : Response :=
  match getFile request.url targetClientId with
  | some cached =>
    if cached.ok then cacheHit cached
    else safeRequest (networkFetch (.req request))
  | none => safeRequest (networkFetch (.req request))

/-- `fetchCore(request, networkFetch, fileCache, targetClientId, log,
shouldLog)`.  The `log`/`shouldLog` arguments only drive `logRequest`, whose
side effect does not touch the returned response, so they are omitted here. -/
def fetchCore (request : Request) (networkFetch : NetworkFetch)
    (getFile : CacheResolver) (targetClientId : String) : Response :=
  let policy := jsParseInt (requestPolicyString request)
  if policy = some NETWORK_ONLY_POLICY then
    networkOnlyBranch request networkFetch
  else if policy = some NETWORK_FIRST_POLICY then
    networkFirstBranch request networkFetch getFile targetClientId
  else if policy = some CACHE_ONLY_POLICY then
    cacheOnlyBranch request getFile targetClientId
  else
    cacheFirstBranch request networkFetch getFile targetClientId

/-! ### JavaScript builtins used by the router (fetchHandler.ts) -/

/-- `String.prototype.startsWith`. -/
def jsStartsWith (s pre : String) : Bool := pre.data.isPrefixOf s.data

/-- Split a character list on a separator character (every occurrence), as
`String.prototype.split` does with a one-character separator. -/
def splitOnChar (sep : Char) : List Char → List (List Char)
  | [] => [[]]
  | c :: rest =>
    match splitOnChar sep rest with
    | [] => [[c]]
    | h :: t => if c = sep then [] :: h :: t else (c :: h) :: t

/-- `url.split("?")`. -/
def jsSplitQ (s : String) : List String := (splitOnChar '?' s.data).map String.mk

/-- Drop whitespace from both ends of a character list. -/
def listTrim (l : List Char) : List Char :=
  ((l.dropWhile jsWhitespace).reverse.dropWhile jsWhitespace).reverse

/-- `String.prototype.trim`. -/
def jsTrim (s : String) : String := ⟨listTrim s.data⟩

/-- Value of a hexadecimal digit character. -/
def hexDigit (c : Char) : Option Nat :=
  if '0' ≤ c ∧ c ≤ '9' then some (c.toNat - 48)
  else if 'a' ≤ c ∧ c ≤ 'f' then some (c.toNat - 87)
  else if 'A' ≤ c ∧ c ≤ 'F' then some (c.toNat - 55)
  else none

/-- UTF-8 encoding of one character, as a byte list. -/
def charUtf8Bytes (c : Char) : List Nat :=
  let n := c.toNat
  if n < 0x80 then [n]
  else if n < 0x800 then [0xC0 + n / 64, 0x80 + n % 64]
  else if n < 0x10000 then [0xE0 + n / 4096, 0x80 + (n / 64) % 64, 0x80 + n % 64]
  else [0xF0 + n / 262144, 0x80 + (n / 4096) % 64, 0x80 + (n / 64) % 64, 0x80 + n % 64]

/-- A UTF-8 continuation byte. -/
def utf8Cont (b : Nat) : Prop := 0x80 ≤ b ∧ b ≤ 0xBF

instance (b : Nat) : Decidable (utf8Cont b) := by unfold utf8Cont; infer_instance

/-- Strict UTF-8: decode one scalar value from the front of a byte list,
rejecting truncated, overlong and surrogate encodings. -/
def utf8DecodeOne : List Nat → Option (Char × List Nat)
  | [] => none
  | b0 :: rest =>
    if b0 < 0x80 then some (Char.ofNat b0, rest)
    else if 0xC2 ≤ b0 ∧ b0 ≤ 0xDF then
      match rest with
      | b1 :: r =>
        if utf8Cont b1 then some (Char.ofNat ((b0 - 0xC0) * 64 + (b1 - 0x80)), r) else none
      | _ => none
    else if 0xE0 ≤ b0 ∧ b0 ≤ 0xEF then
      match rest with
      | b1 :: b2 :: r =>
        if utf8Cont b1 ∧ utf8Cont b2 ∧ (b0 = 0xE0 → 0xA0 ≤ b1) ∧ (b0 = 0xED → b1 ≤ 0x9F) then
          some (Char.ofNat ((b0 - 0xE0) * 4096 + (b1 - 0x80) * 64 + (b2 - 0x80)), r)
        else none
      | _ => none
    else if 0xF0 ≤ b0 ∧ b0 ≤ 0xF4 then
      match rest with
      | b1 :: b2 :: b3 :: r =>
        if utf8Cont b1 ∧ utf8Cont b2 ∧ utf8Cont b3 ∧
            (b0 = 0xF0 → 0x90 ≤ b1) ∧ (b0 = 0xF4 → b1 ≤ 0x8F) then
          some (Char.ofNat ((b0 - 0xF0) * 262144 + (b1 - 0x80) * 4096 +
            (b2 - 0x80) * 64 + (b3 - 0x80)), r)
        else none
      | _ => none
    else none

/-- Strict UTF-8 decoding of a whole byte list (fuelled so that it is
structurally recursive; each step consumes at least one byte, so
`fuel = length` always suffices). -/
def utf8DecodeStrictLoop : Nat → List Nat → Option (List Char)
  | 0, [] => some []
  | 0, _ :: _ => none
  | _ + 1, [] => some []
  | fuel + 1, b :: rest =>
    match utf8DecodeOne (b :: rest) with
    | some (c, r) => (utf8DecodeStrictLoop fuel r).map (fun cs => c :: cs)
    | none => none

/-- Lenient UTF-8 decoding: an undecodable position yields U+FFFD and skips
one byte (as the WHATWG URL percent-decoder does). -/
def utf8DecodeLenientLoop : Nat → List Nat → List Char
  | 0, _ => []
  | _ + 1, [] => []
  | fuel + 1, b :: rest =>
    match utf8DecodeOne (b :: rest) with
    | some (c, r) => c :: utf8DecodeLenientLoop fuel r
    | none => Char.ofNat 0xFFFD :: utf8DecodeLenientLoop fuel rest

/-- Strict percent-decoding to bytes: `%` must be followed by two hex
digits; other characters contribute their UTF-8 bytes.  `none` models the
`URIError` thrown by `decodeURIComponent`. -/
def percentDecodeStrict : List Char → Option (List Nat)
  | [] => some []
  | '%' :: rest =>
    match rest with
    | h1 :: h2 :: rest2 =>
      match hexDigit h1, hexDigit h2 with
      | some a, some b => (percentDecodeStrict rest2).map (fun bs => (a * 16 + b) :: bs)
      | _, _ => none
    | _ => none
  | c :: rest => (percentDecodeStrict rest).map (fun bs => charUtf8Bytes c ++ bs)

/-- Lenient percent-decoding to bytes: a `%` not followed by two hex digits
passes through literally (the WHATWG form-urlencoded parser). -/
def percentDecodeLenient : List Char → List Nat
  | [] => []
  | '%' :: h1 :: h2 :: rest2 =>
    match hexDigit h1, hexDigit h2 with
    | some a, some b => (a * 16 + b) :: percentDecodeLenient rest2
    | _, _ => charUtf8Bytes '%' ++ percentDecodeLenient (h1 :: h2 :: rest2)
  | c :: rest => charUtf8Bytes c ++ percentDecodeLenient rest

/-- ECMAScript `decodeURIComponent`; `none` models a thrown `URIError`
(malformed percent escape or invalid UTF-8 in the decoded bytes). -/
def decodeURIComponent (s : String) : Option String :=
  match percentDecodeStrict s.data with
  | none => none
  | some bytes => (utf8DecodeStrictLoop bytes.length bytes).map String.mk

/-- One `application/x-www-form-urlencoded` token: `+` becomes a space,
then lenient percent-decoding, then lenient UTF-8 decoding. -/
def formDecode (l : List Char) : String :=
  let pd := percentDecodeLenient (l.map (fun c => if c = '+' then ' ' else c))
  ⟨utf8DecodeLenientLoop pd.length pd⟩

/-- Parse one form-urlencoded segment into a (name, value) pair, splitting
at the first `=` (no `=` means an empty value). -/
def parsePair (seg : List Char) : String × String :=
  (formDecode (seg.takeWhile (· ≠ '=')), formDecode ((seg.dropWhile (· ≠ '=')).drop 1))

/-- `new URLSearchParams(init)`: strip one leading `?`, split on `&`,
ignore empty segments, parse each segment into a (name, value) pair. -/
def urlSearchParams (init : String) : List (String × String) :=
  let s := if jsStartsWith init "?" then init.data.drop 1 else init.data
  ((splitOnChar '&' s).filter (· ≠ [])).map parsePair

/-- `URLSearchParams.has`. -/
def paramsHas (ps : List (String × String)) (name : String) : Bool :=
  ps.any (fun p => p.1 = name)

/-- `URLSearchParams.get`: first matching value, `none` for JS `null`. -/
def paramsGet (ps : List (String × String)) (name : String) : Option String :=
  (ps.find? (fun p => p.1 = name)).map (·.2)

/-- JavaScript `x || ""` applied to `URLSearchParams.get`'s result (`null`
and the empty string both yield `""`). -/
def jsOrEmpty (o : Option String) : String := o.getD ""

/-- UTF-8 byte length of a string: `new TextEncoder().encode(s).length`. -/
def utf8Length (s : String) : Nat :=
  s.data.foldl (fun n c => n + (charUtf8Bytes c).length) 0

/-- One step of JavaScript object-literal key insertion: an existing key is
overwritten in place, a new key is appended. -/
def setRecord (hs : List (String × String)) (k v : String) : List (String × String) :=
  if hs.any (fun p => p.1 = k) then hs.map (fun p => if p.1 = k then (k, v) else p)
  else hs ++ [(k, v)]

/-- JavaScript object spread `{...base, ...extra}` as an ordered record. -/
def jsRecord (base extra : List (String × String)) : List (String × String) :=
  extra.foldl (fun acc p => setRecord acc p.1 p.2) base

/-! ### fetchHandler.ts -/

/-- The template literal of `generateTemplate`, up to the interpolation of
`securityPolicy` (leading newline included). -/
def TEMPLATE_PRE : String :=
  "\n<!DOCTYPE html>\n<html lang=\"en\">\n<head>\n    <meta charset=\"UTF-8\">\n    <meta http-equiv=\"X-UA-Compatible\" content=\"IE=edge\">\n    <meta name=\"viewport\" content=\"width=device-width, initial-scale=1.0\">\n    <title>Sandbox</title>\n    <meta http-equiv=\"Content-Security-Policy\" content=\""

/-- The template literal between the `securityPolicy` and `importSource`
interpolations. -/
def TEMPLATE_MID : String :=
  "\"/>\n</head>\n<body>\n    <script entry=\""

/-- The template literal after the `importSource` interpolation. -/
def TEMPLATE_POST : String :=
  "\" id=\"root-script\" src=\"./secure.compiled.js\" type=\"module\" defer> </script>\n</body>\n</html>"

/-- `generateTemplate({importSource, securityPolicy})`: interpolate both
values into the fixed HTML template and `.trim()` the result. -/
def generateTemplate (importSource securityPolicy : String) : String :=
  jsTrim (TEMPLATE_PRE ++ securityPolicy ++ TEMPLATE_MID ++ importSource ++ TEMPLATE_POST)

/-- `FetchHandlerEvent`: the fields of the fetch event the handler reads
(`respondWith`/`waitUntil` only carry the result outward). -/
structure FetchHandlerEvent where
  request : Request
  clientId : String
  resultingClientId : String
deriving DecidableEq, Repr

/-- The build-time inlined artifacts and route constant imported by
fetchHandler.ts (`index-html.inlined.json`, `secure-compiled-mjs.inlined.json`,
`INDEX_HTML_LENGTH`, `SECURE_MJS_LENGTH` from generated files, and
`RUN_PROGRAM_PATHNAME` from `config.ts`, which the repository's tests pin to
`"/runProgram"`).  They are frozen module-level constants, modelled as
parameters of the handler. -/
structure InlinedAssets where
  IndexHtml : String
  INDEX_HTML_LENGTH : Nat
  SecureMjs : String
  SECURE_MJS_LENGTH : Nat
  RUN_PROGRAM_PATHNAME : String
deriving DecidableEq, Repr

/-- `FetchHandlerOptions` (the `log`/`config` members only drive logging and
are omitted; `fileCache.getClientFile` is the client-scoped cache resolver). -/
structure FetchHandlerOptions where
  origin : String
  getClientFile : CacheResolver
  networkFetch : NetworkFetch
  inMemoryDocumentHeaders : List (String × String) := []

/-- The in-memory fallback response for the root document. -/
def inMemoryHtmlResponse (o : FetchHandlerOptions) (a : InlinedAssets) : Response :=
  { status := 200
    statusText := "OK"
    headers := jsRecord
      [("content-type", "text/html"), ("content-length", toString a.INDEX_HTML_LENGTH)]
      o.inMemoryDocumentHeaders
    body := a.IndexHtml }

/-- The in-memory fallback response for the entry script. -/
def inMemorySecureResponse (o : FetchHandlerOptions) (a : InlinedAssets) : Response :=
  { status := 200
    statusText := "OK"
    headers := jsRecord
      [("content-type", "text/javascript"), ("content-length", toString a.SECURE_MJS_LENGTH)]
      o.inMemoryDocumentHeaders
    body := a.SecureMjs }

/-- The root-document arm of the handler (`request.url === rootDoc`):
try the network with the incoming request; on rejection fall back to the
frozen index document, tagged as a cache hit. -/
def rootRoute (o : FetchHandlerOptions) (a : InlinedAssets) (request : Request) :
    Except String Response :=
  match o.networkFetch (.req request) with
  | .ok r => .ok r
  | .error _ => .ok (cacheHit (inMemoryHtmlResponse o a))

/-- The template-endpoint arm of the handler.  A `.error` result models a
promise rejection (here: the `URIError` thrown by `decodeURIComponent`). -/
def templateRoute (o : FetchHandlerOptions) (request : Request) :
    Except String Response :=
  let query := jsSplitQ request.url
  if query.length < 2 then
    .ok (errorResponse "template endpoint must have query")
  else
    let params := urlSearchParams ("?" ++ query.getD 1 "")
    if !(paramsHas params "csp") || !(paramsHas params "entry") then
      .ok (errorResponse "template endpoint have both an \x27csp\x27 and \x27entry\x27 query")
    else
      match decodeURIComponent (jsOrEmpty (paramsGet params "csp")) with
      | none => .error "URIError: URI malformed"
      | some securityPolicy =>
        match decodeURIComponent (jsOrEmpty (paramsGet params "entry")) with
        | none => .error "URIError: URI malformed"
        | some importSource =>
          let templateText := generateTemplate importSource securityPolicy
          .ok { status := 200
                statusText := "OK"
                headers := jsRecord
                  [("content-type", "text/html"),
                   ("content-length", toString (utf8Length templateText))]
                  o.inMemoryDocumentHeaders
                body := templateText }

/-- The entry-script arm of the handler: fetch the fixed `entryScript` URL
string (not the incoming request); on rejection fall back to the frozen
compiled script, tagged as a cache hit. -/
def entryRoute (o : FetchHandlerOptions) (a : InlinedAssets) : Except String Response :=
  match o.networkFetch (.url (o.origin ++ "/secure.compiled.js")) with
  | .ok r => .ok r
  | .error _ => .ok (cacheHit (inMemorySecureResponse o a))

/-- The per-event resolver returned by `createFetchHandler(options)`.
`.error e` models the returned promise rejecting with cause `e`. -/
def createFetchHandler (o : FetchHandlerOptions) (a : InlinedAssets)
    (event : FetchHandlerEvent) : Except String Response :=
  let request := event.request
  if jsStartsWith request.url o.origin then
    if request.url = o.origin ++ "/" then
      rootRoute o a request
    else if jsStartsWith request.url (o.origin ++ a.RUN_PROGRAM_PATHNAME) then
      templateRoute o request
    else if jsStartsWith request.url (o.origin ++ "/secure.compiled.js") then
      entryRoute o a
    else if jsStartsWith request.url (o.origin ++ "/test.mjs") then
      o.networkFetch (.req request)
    else
      .ok NOT_FOUND_RESPONSE
  else
    .ok (fetchCore request o.networkFetch o.getClientFile
      (if event.clientId = "" then event.resultingClientId else event.clientId))

instance : DecidableEq (Except String Response) := fun a b =>
  match a, b with
  | .ok x, .ok y =>
    if h : x = y then isTrue (by rw [h]) else isFalse (by intro hc; cases hc; exact h rfl)
  | .error x, .error y =>
    if h : x = y then isTrue (by rw [h]) else isFalse (by intro hc; cases hc; exact h rfl)
  | .ok _, .error _ => isFalse (by intro hc; cases hc)
  | .error _, .ok _ => isFalse (by intro hc; cases hc)

/-! ### Helper lemmas -/

theorem string_data_append (a b : String) : (a ++ b).data = a.data ++ b.data := rfl

theorem jsStartsWith_iff {s pre : String} :
    jsStartsWith s pre = true ↔ pre.data <+: s.data := by
  unfold jsStartsWith
  exact List.isPrefixOf_iff_prefix

/-- A string starts with any left factor of itself. -/
theorem jsStartsWith_append_self (t u : String) : jsStartsWith (t ++ u) t = true := by
  rw [jsStartsWith_iff, string_data_append]
  exact List.prefix_append _ _

/-- `startsWith` by a concatenation implies `startsWith` by its left part. -/
theorem jsStartsWith_of_append {s : String} (t u : String)
    (h : jsStartsWith s (t ++ u) = true) : jsStartsWith s t = true := by
  rw [jsStartsWith_iff, string_data_append] at h
  exact jsStartsWith_iff.mpr ((List.prefix_append t.data u.data).trans h)

/-- A prefix bounds the length of the whole string. -/
theorem length_le_of_jsStartsWith {s pre : String}
    (h : jsStartsWith s pre = true) : pre.data.length ≤ s.data.length :=
  (jsStartsWith_iff.mp h).length_le

/-- A present, non-empty policy header is the policy string `fetchCore`
parses. -/
theorem requestPolicyString_of_header {req : Request} {v : String}
    (h : headersGet req.headers serviceWorkerPolicyHeader = some v) (hne : v ≠ "") :
    requestPolicyString req = v := by
  unfold requestPolicyString
  rw [h]
  simp [hne]

/-- An absent policy header falls back to the cache-first policy string. -/
theorem requestPolicyString_of_no_header {req : Request}
    (h : headersGet req.headers serviceWorkerPolicyHeader = none) :
    requestPolicyString req = CACHE_FIRST := by
  unfold requestPolicyString
  rw [h]

/-- Dispatch: policy string `"1"` selects the network-first branch. -/
theorem fetchCore_dispatch_networkFirst {req : Request} (nf : NetworkFetch)
    (cf : CacheResolver) (cid : String) (h : requestPolicyString req = "1") :
    fetchCore req nf cf cid = networkFirstBranch req nf cf cid := by
  unfold fetchCore
  rw [h]
  rfl

/-- Dispatch: policy string `"2"` selects the network-only branch. -/
theorem fetchCore_dispatch_networkOnly {req : Request} (nf : NetworkFetch)
    (cf : CacheResolver) (cid : String) (h : requestPolicyString req = "2") :
    fetchCore req nf cf cid = networkOnlyBranch req nf := by
  unfold fetchCore
  rw [h]
  rfl

/-- Dispatch: policy string `"4"` selects the cache-only branch. -/
theorem fetchCore_dispatch_cacheOnly {req : Request} (nf : NetworkFetch)
    (cf : CacheResolver) (cid : String) (h : requestPolicyString req = "4") :
    fetchCore req nf cf cid = cacheOnlyBranch req cf cid := by
  unfold fetchCore
  rw [h]
  rfl

/-- Dispatch: policy string `"3"` selects the default (cache-first) branch. -/
theorem fetchCore_dispatch_cacheFirst {req : Request} (nf : NetworkFetch)
    (cf : CacheResolver) (cid : String) (h : requestPolicyString req = "3") :
    fetchCore req nf cf cid = cacheFirstBranch req nf cf cid := by
  unfold fetchCore
  rw [h]
  rfl

/-! ### Fixtures for witnesses and counterexamples -/

/-- A cached 200 response used by concrete test inputs. -/
def okCached : Response := { status := 200, statusText := "OK", headers := [], body := "cached" }

/-- A cached 403 response used by concrete test inputs. -/
def forbiddenCached : Response :=
  { status := 403, statusText := "FORBIDDEN", headers := [], body := "no" }

/-- A network resolver that always rejects. -/
def netDown : NetworkFetch := fun _ => .error "net-reject"

/-- A network resolver that always resolves with a fixed 403 response. -/
def netForbidden : NetworkFetch := fun _ =>
  .ok { status := 403, statusText := "FORBIDDEN", headers := [], body := "denied" }

/-- A cache resolver that always hits with `okCached`. -/
def cacheAlwaysOk : CacheResolver := fun _ _ => some okCached

/-- A cache resolver that always misses. -/
def cacheMiss : CacheResolver := fun _ _ => none

/-! ### Claims about fetchCore -/

/-- Claim C1.  NetworkFirst policy (request carries `Sw-Policy: 1`): a
resolved network response is returned verbatim whatever its status; on
rejection the cache is consulted and the result is `cacheHit entry` exactly
when an entry with a 2xx status exists, while a miss or a non-2xx entry
yields the 500 `errorResponse` carrying the `Sw-Net-Err` header. -/
theorem networkFirst_policy_resolution (req : Request) (nf : NetworkFetch)
    (cf : CacheResolver) (cid : String)
    (h : headersGet req.headers serviceWorkerPolicyHeader = some "1") :
    (∀ r, nf (.req req) = .ok r → fetchCore req nf cf cid = r) ∧
    (∀ e, nf (.req req) = .error e →
      ((∃ c, cf req.url cid = some c ∧ c.ok = true ∧
          fetchCore req nf cf cid = cacheHit c) ∨
       ((cf req.url cid = none ∨ ∃ c, cf req.url cid = some c ∧ c.ok = false) ∧
        fetchCore req nf cf cid = errorResponse e ∧
        (errorResponse e).status = 500 ∧
        headersGet (errorResponse e).headers serviceWorkerErrorCatchHeader = some "1"))) := by
  have hd := fetchCore_dispatch_networkFirst nf cf cid
    (requestPolicyString_of_header h (by decide))
  constructor
  · intro r hr
    rw [hd]
    unfold networkFirstBranch
    rw [hr]
  · intro e he
    rw [hd]
    unfold networkFirstBranch
    rw [he]
    cases hc : cf req.url cid with
    | none =>
      exact Or.inr ⟨Or.inl rfl, rfl, rfl, rfl⟩
    | some c =>
      by_cases hok : c.ok = true
      · exact Or.inl ⟨c, rfl, hok, by simp [hok]⟩
      · refine Or.inr ⟨Or.inr ⟨c, rfl, Bool.eq_false_iff.mpr hok⟩, ?_, rfl, rfl⟩
        simp [hok]

/-- Witness for C1: concrete network-rejecting run against a cache hit. -/
theorem networkFirst_policy_resolution_witness :
    headersGet (Request.mk "https://a.b/x" [("Sw-Policy", "1")]).headers
      serviceWorkerPolicyHeader = some "1" ∧
    ((∀ r, netDown (.req (Request.mk "https://a.b/x" [("Sw-Policy", "1")])) = .ok r →
        fetchCore (Request.mk "https://a.b/x" [("Sw-Policy", "1")]) netDown cacheAlwaysOk "" = r) ∧
     (∀ e, netDown (.req (Request.mk "https://a.b/x" [("Sw-Policy", "1")])) = .error e →
       ((∃ c, cacheAlwaysOk "https://a.b/x" "" = some c ∧ c.ok = true ∧
           fetchCore (Request.mk "https://a.b/x" [("Sw-Policy", "1")]) netDown cacheAlwaysOk "" =
             cacheHit c) ∨
        ((cacheAlwaysOk "https://a.b/x" "" = none ∨
            ∃ c, cacheAlwaysOk "https://a.b/x" "" = some c ∧ c.ok = false) ∧
         fetchCore (Request.mk "https://a.b/x" [("Sw-Policy", "1")]) netDown cacheAlwaysOk "" =
           errorResponse e ∧
         (errorResponse e).status = 500 ∧
         headersGet (errorResponse e).headers serviceWorkerErrorCatchHeader = some "1")))) :=
  ⟨by decide,
   networkFirst_policy_resolution (Request.mk "https://a.b/x" [("Sw-Policy", "1")])
     netDown cacheAlwaysOk "" (by decide)⟩

/-- Claim C2.  CacheFirst policy (no `Sw-Policy` header): a cached 2xx entry
is returned as `cacheHit entry` and the network is never called (the result
does not depend on the network resolver); otherwise the network response is
returned verbatim, and a network rejection yields the 500 `errorResponse`
carrying the `Sw-Net-Err` header. -/
theorem cacheFirst_default_resolution (req : Request) (cf : CacheResolver) (cid : String)
    (h : headersGet req.headers serviceWorkerPolicyHeader = none) :
    (∀ c, cf req.url cid = some c → c.ok = true →
      (∀ nf, fetchCore req nf cf cid = cacheHit c) ∧
      (∀ nf₁ nf₂, fetchCore req nf₁ cf cid = fetchCore req nf₂ cf cid)) ∧
    (∀ nf, (cf req.url cid = none ∨ ∃ c, cf req.url cid = some c ∧ c.ok = false) →
      (∀ r, nf (.req req) = .ok r → fetchCore req nf cf cid = r) ∧
      (∀ e, nf (.req req) = .error e →
        fetchCore req nf cf cid = errorResponse e ∧
        (errorResponse e).status = 500 ∧
        headersGet (errorResponse e).headers serviceWorkerErrorCatchHeader = some "1")) := by
  have hd : ∀ nf, fetchCore req nf cf cid = cacheFirstBranch req nf cf cid := fun nf =>
    fetchCore_dispatch_cacheFirst nf cf cid (requestPolicyString_of_no_header h)
  constructor
  · intro c hc hok
    have hb : ∀ nf : NetworkFetch, fetchCore req nf cf cid = cacheHit c := by
      intro nf
      rw [hd]
      unfold cacheFirstBranch
      rw [hc]
      simp [hok]
    exact ⟨hb, fun nf₁ nf₂ => by rw [hb, hb]⟩
  · intro nf hmiss
    have hb : fetchCore req nf cf cid = safeRequest (nf (.req req)) := by
      rw [hd]
      unfold cacheFirstBranch
      rcases hmiss with hnone | ⟨c, hc, hok⟩
      · rw [hnone]
      · rw [hc]
        simp [hok]
    constructor
    · intro r hr
      rw [hb]
      unfold safeRequest
      rw [hr]
    · intro e he
      rw [hb]
      unfold safeRequest
      rw [he]
      exact ⟨rfl, rfl, rfl⟩

/-- Witness for C2: a cache hit with status 200 and, separately, a cache
resolver that misses against a rejecting network. -/
theorem cacheFirst_default_resolution_witness :
    headersGet (Request.mk "https://a.b/y" []).headers serviceWorkerPolicyHeader = none ∧
    ((∀ c, cacheAlwaysOk "https://a.b/y" "" = some c → c.ok = true →
       (∀ nf, fetchCore (Request.mk "https://a.b/y" []) nf cacheAlwaysOk "" = cacheHit c) ∧
       (∀ nf₁ nf₂, fetchCore (Request.mk "https://a.b/y" []) nf₁ cacheAlwaysOk "" =
          fetchCore (Request.mk "https://a.b/y" []) nf₂ cacheAlwaysOk "")) ∧
     (∀ nf, (cacheAlwaysOk "https://a.b/y" "" = none ∨
         ∃ c, cacheAlwaysOk "https://a.b/y" "" = some c ∧ c.ok = false) →
       (∀ r, nf (.req (Request.mk "https://a.b/y" [])) = .ok r →
          fetchCore (Request.mk "https://a.b/y" []) nf cacheAlwaysOk "" = r) ∧
       (∀ e, nf (.req (Request.mk "https://a.b/y" [])) = .error e →
          fetchCore (Request.mk "https://a.b/y" []) nf cacheAlwaysOk "" = errorResponse e ∧
          (errorResponse e).status = 500 ∧
          headersGet (errorResponse e).headers serviceWorkerErrorCatchHeader = some "1"))) :=
  ⟨by decide, cacheFirst_default_resolution (Request.mk "https://a.b/y" []) cacheAlwaysOk ""
    (by decide)⟩

/-- Claim C3.  CacheOnly policy (`Sw-Policy: 4`): the network is never
called; a cached entry is returned with the `X-Cache-Hit: SW HIT` header
appended whatever its status; a miss yields the constant 404
`NOT_FOUND_RESPONSE`. -/
theorem cacheOnly_policy_resolution (req : Request) (cf : CacheResolver) (cid : String)
    (h : headersGet req.headers serviceWorkerPolicyHeader = some "4") :
    (∀ nf₁ nf₂, fetchCore req nf₁ cf cid = fetchCore req nf₂ cf cid) ∧
    (∀ c, cf req.url cid = some c → ∀ nf,
      fetchCore req nf cf cid = cacheHit c ∧
      (cacheHit c).status = c.status ∧
      (cacheHit c).headers = c.headers ++ [serviceWorkerCacheHitHeader]) ∧
    (cf req.url cid = none → ∀ nf,
      fetchCore req nf cf cid = NOT_FOUND_RESPONSE ∧ NOT_FOUND_RESPONSE.status = 404) := by
  have hd : ∀ nf, fetchCore req nf cf cid = cacheOnlyBranch req cf cid := fun nf =>
    fetchCore_dispatch_cacheOnly nf cf cid (requestPolicyString_of_header h (by decide))
  refine ⟨fun nf₁ nf₂ => by rw [hd, hd], ?_, ?_⟩
  · intro c hc nf
    rw [hd]
    unfold cacheOnlyBranch
    rw [hc]
    exact ⟨rfl, rfl, rfl⟩
  · intro hc nf
    rw [hd]
    unfold cacheOnlyBranch
    rw [hc]
    exact ⟨rfl, rfl⟩

/-- Witness for C3: a cache hit with non-2xx status 403 is still served with
the cache-hit header. -/
theorem cacheOnly_policy_resolution_witness :
    headersGet (Request.mk "https://a.b/z" [("Sw-Policy", "4")]).headers
      serviceWorkerPolicyHeader = some "4" ∧
    ((∀ nf₁ nf₂,
       fetchCore (Request.mk "https://a.b/z" [("Sw-Policy", "4")]) nf₁
         (fun _ _ => some forbiddenCached) "" =
       fetchCore (Request.mk "https://a.b/z" [("Sw-Policy", "4")]) nf₂
         (fun _ _ => some forbiddenCached) "") ∧
     (∀ c, (fun _ _ => some forbiddenCached : CacheResolver) "https://a.b/z" "" = some c →
       ∀ nf,
         fetchCore (Request.mk "https://a.b/z" [("Sw-Policy", "4")]) nf
           (fun _ _ => some forbiddenCached) "" = cacheHit c ∧
         (cacheHit c).status = c.status ∧
         (cacheHit c).headers = c.headers ++ [serviceWorkerCacheHitHeader]) ∧
     ((fun _ _ => some forbiddenCached : CacheResolver) "https://a.b/z" "" = none →
       ∀ nf,
         fetchCore (Request.mk "https://a.b/z" [("Sw-Policy", "4")]) nf
           (fun _ _ => some forbiddenCached) "" = NOT_FOUND_RESPONSE ∧
         NOT_FOUND_RESPONSE.status = 404)) :=
  ⟨by decide, cacheOnly_policy_resolution (Request.mk "https://a.b/z" [("Sw-Policy", "4")])
    (fun _ _ => some forbiddenCached) "" (by decide)⟩

/-- Claim C4.  NetworkOnly policy (`Sw-Policy: 2`): the cache resolver is
never invoked (the result depends on neither the cache resolver nor the
client id); a resolved network response is returned verbatim; a rejection
yields the 500 `errorResponse` carrying `Sw-Net-Err`, whose body is the
stringified rejection cause. -/
theorem networkOnly_policy_resolution (req : Request) (nf : NetworkFetch)
    (cid : String)
    (h : headersGet req.headers serviceWorkerPolicyHeader = some "2") :
    (∀ cf₁ cf₂ cid₁ cid₂, fetchCore req nf cf₁ cid₁ = fetchCore req nf cf₂ cid₂) ∧
    (∀ r, nf (.req req) = .ok r → ∀ cf, fetchCore req nf cf cid = r) ∧
    (∀ e, nf (.req req) = .error e → ∀ cf,
      fetchCore req nf cf cid = errorResponse e ∧
      (errorResponse e).status = 500 ∧
      headersGet (errorResponse e).headers serviceWorkerErrorCatchHeader = some "1" ∧
      (errorResponse e).body = e) := by
  have hd : ∀ cf cid', fetchCore req nf cf cid' = networkOnlyBranch req nf :=
    fun cf cid' => fetchCore_dispatch_networkOnly nf cf cid'
      (requestPolicyString_of_header h (by decide))
  refine ⟨fun cf₁ cf₂ cid₁ cid₂ => by rw [hd, hd], ?_, ?_⟩
  · intro r hr cf
    rw [hd]
    unfold networkOnlyBranch safeRequest
    rw [hr]
  · intro e he cf
    rw [hd]
    unfold networkOnlyBranch safeRequest
    rw [he]
    exact ⟨rfl, rfl, rfl, rfl⟩

/-- Witness for C4: a rejecting network under NetworkOnly. -/
theorem networkOnly_policy_resolution_witness :
    headersGet (Request.mk "https://a.b/w" [("Sw-Policy", "2")]).headers
      serviceWorkerPolicyHeader = some "2" ∧
    ((∀ cf₁ cf₂ cid₁ cid₂,
       fetchCore (Request.mk "https://a.b/w" [("Sw-Policy", "2")]) netDown cf₁ cid₁ =
       fetchCore (Request.mk "https://a.b/w" [("Sw-Policy", "2")]) netDown cf₂ cid₂) ∧
     (∀ r, netDown (.req (Request.mk "https://a.b/w" [("Sw-Policy", "2")])) = .ok r →
       ∀ cf, fetchCore (Request.mk "https://a.b/w" [("Sw-Policy", "2")]) netDown cf "" = r) ∧
     (∀ e, netDown (.req (Request.mk "https://a.b/w" [("Sw-Policy", "2")])) = .error e →
       ∀ cf,
         fetchCore (Request.mk "https://a.b/w" [("Sw-Policy", "2")]) netDown cf "" =
           errorResponse e ∧
         (errorResponse e).status = 500 ∧
         headersGet (errorResponse e).headers serviceWorkerErrorCatchHeader = some "1" ∧
         (errorResponse e).body = e)) :=
  ⟨by decide, networkOnly_policy_resolution (Request.mk "https://a.b/w" [("Sw-Policy", "2")])
    netDown "" (by decide)⟩

/-- Claim C5 (amended).  If the `Sw-Policy` header is absent, or the
ECMAScript `parseInt` (base 10) of the policy string matches none of the
codes 1 (NetworkFirst), 2 (NetworkOnly), 4 (CacheOnly), `fetchCore`
resolves the request with the cache-first strategy (the switch's default
branch). -/
theorem unmatched_policy_defaults_to_cacheFirst (req : Request) (nf : NetworkFetch)
    (cf : CacheResolver) (cid : String)
    (h1 : jsParseInt (requestPolicyString req) ≠ some NETWORK_ONLY_POLICY)
    (h2 : jsParseInt (requestPolicyString req) ≠ some NETWORK_FIRST_POLICY)
    (h3 : jsParseInt (requestPolicyString req) ≠ some CACHE_ONLY_POLICY) :
    fetchCore req nf cf cid = cacheFirstBranch req nf cf cid := by
  unfold fetchCore
  simp only [if_neg h1, if_neg h2, if_neg h3]

/-- Witness for C5: a request whose policy header `"cache"` parses to NaN
resolves with the cache-first branch. -/
theorem unmatched_policy_defaults_to_cacheFirst_witness :
    jsParseInt (requestPolicyString (Request.mk "https://a.b/q" [("Sw-Policy", "cache")])) ≠
      some NETWORK_ONLY_POLICY ∧
    jsParseInt (requestPolicyString (Request.mk "https://a.b/q" [("Sw-Policy", "cache")])) ≠
      some NETWORK_FIRST_POLICY ∧
    jsParseInt (requestPolicyString (Request.mk "https://a.b/q" [("Sw-Policy", "cache")])) ≠
      some CACHE_ONLY_POLICY ∧
    fetchCore (Request.mk "https://a.b/q" [("Sw-Policy", "cache")]) netDown cacheAlwaysOk "" =
      cacheFirstBranch (Request.mk "https://a.b/q" [("Sw-Policy", "cache")]) netDown
        cacheAlwaysOk "" :=
  ⟨by decide, by decide, by decide,
   unmatched_policy_defaults_to_cacheFirst (Request.mk "https://a.b/q" [("Sw-Policy", "cache")])
     netDown cacheAlwaysOk "" (by decide) (by decide) (by decide)⟩

/-- Counterexample for C5 as stated: the header value `"2abc"` is not one of
the four integer policy-code strings `"1"`, `"2"`, `"3"`, `"4"`, yet the
request is resolved with the network-only strategy (`parseInt("2abc", 10)`
is `2`), not the cache-first strategy: against a rejecting network and a
200-status cache hit, cache-first would serve the cache hit while
`fetchCore` returns the 500 network-error response. -/
theorem unmatched_policy_claim_counterexample :
    headersGet (Request.mk "https://a.b/cx" [("Sw-Policy", "2abc")]).headers
      serviceWorkerPolicyHeader = some "2abc" ∧
    ("2abc" ≠ "1" ∧ "2abc" ≠ "2" ∧ "2abc" ≠ "3" ∧ "2abc" ≠ "4") ∧
    fetchCore (Request.mk "https://a.b/cx" [("Sw-Policy", "2abc")]) netDown cacheAlwaysOk "" =
      errorResponse "net-reject" ∧
    cacheFirstBranch (Request.mk "https://a.b/cx" [("Sw-Policy", "2abc")]) netDown
      cacheAlwaysOk "" = cacheHit okCached ∧
    errorResponse "net-reject" ≠ cacheHit okCached := by
  decide

/-! ### Helper lemmas for the router proofs -/

theorem dropWhile_append_ne_nil {p : Char → Bool} {l₁ : List Char} (l₂ : List Char)
    (h : l₁.dropWhile p ≠ []) :
    (l₁ ++ l₂).dropWhile p = l₁.dropWhile p ++ l₂ := by
  induction l₁ with
  | nil => exact absurd rfl h
  | cons c t ih =>
    by_cases hc : p c
    · simp only [List.dropWhile_cons, hc, if_true, List.cons_append] at *
      exact ih h
    · simp [List.dropWhile_cons, hc]

theorem listTrim_of (front mid back : List Char)
    (h1 : front.dropWhile jsWhitespace = front) (h2 : front ≠ [])
    (h3 : back.reverse.dropWhile jsWhitespace = back.reverse) (h4 : back ≠ []) :
    listTrim ('\n' :: (front ++ mid ++ back)) = front ++ mid ++ back := by
  unfold listTrim
  have hws : jsWhitespace '\n' = true := by decide
  have step1 : ('\n' :: (front ++ mid ++ back)).dropWhile jsWhitespace =
      (front ++ mid ++ back).dropWhile jsWhitespace := by
    simp [List.dropWhile_cons, hws]
  rw [step1]
  rw [List.append_assoc, dropWhile_append_ne_nil (mid ++ back) (by rw [h1]; exact h2), h1]
  rw [← List.append_assoc, List.reverse_append,
    dropWhile_append_ne_nil _ (by rw [h3]; simpa using h4), h3]
  simp

theorem splitOnChar_ne_nil (sep : Char) (l : List Char) : splitOnChar sep l ≠ [] := by
  cases l with
  | nil => simp [splitOnChar]
  | cons c rest =>
    simp only [splitOnChar]
    cases splitOnChar sep rest with
    | nil => simp
    | cons h t =>
      by_cases hc : c = sep <;> simp [hc]

theorem splitOnChar_length (sep : Char) (l : List Char) :
    (splitOnChar sep l).length = l.count sep + 1 := by
  induction l with
  | nil => simp [splitOnChar]
  | cons c rest ih =>
    simp only [splitOnChar]
    cases hs : splitOnChar sep rest with
    | nil => exact absurd hs (splitOnChar_ne_nil sep rest)
    | cons h t =>
      rw [hs] at ih
      by_cases hc : c = sep
      · simp only [hc, if_pos rfl, List.length_cons] at *
        simp [List.count_cons, ih]
      · simp only [if_neg hc, List.length_cons] at *
        simp [List.count_cons, hc, ih]

/-- The split of a URL without `?` has a single element. -/
theorem jsSplitQ_length_no_query {url : String} (h : '?' ∉ url.data) :
    (jsSplitQ url).length = 1 := by
  unfold jsSplitQ
  rw [List.length_map, splitOnChar_length, List.count_eq_zero.mpr (by simpa using h)]

/-- The split of a URL containing `?` has at least two elements. -/
theorem jsSplitQ_length_query {url : String} (h : '?' ∈ url.data) :
    2 ≤ (jsSplitQ url).length := by
  unfold jsSplitQ
  rw [List.length_map, splitOnChar_length]
  have : 1 ≤ url.data.count '?' := List.one_le_count_iff.mpr h
  omega

/-- `URLSearchParams.get` returning a value implies `URLSearchParams.has`. -/
theorem paramsHas_of_get {ps : List (String × String)} {n v : String}
    (h : paramsGet ps n = some v) : paramsHas ps n = true := by
  unfold paramsGet at h
  unfold paramsHas
  cases hf : ps.find? (fun p => p.1 = n) with
  | none => rw [hf] at h; exact absurd h (by simp)
  | some p =>
    have hmem := List.mem_of_find?_eq_some hf
    have hp := List.find?_some hf
    exact List.any_eq_true.mpr ⟨p, hmem, hp⟩

/-- A URL that starts with the template endpoint is not the root document
URL, provided the endpoint pathname has at least two characters. -/
theorem template_url_ne_root {url origin rpp : String}
    (hRP : 2 ≤ rpp.length) (hstart : jsStartsWith url (origin ++ rpp) = true) :
    url ≠ origin ++ "/" := by
  intro heq
  have hp := jsStartsWith_iff.mp hstart
  rw [heq, string_data_append, string_data_append] at hp
  have hlen := hp.length_le
  simp at hlen
  have hrl : rpp.length = rpp.data.length := rfl
  omega

/-- A URL that starts with the entry-script URL is not the root document
URL. -/
theorem entry_url_ne_root {url origin : String}
    (hstart : jsStartsWith url (origin ++ "/secure.compiled.js") = true) :
    url ≠ origin ++ "/" := by
  intro heq
  have hp := jsStartsWith_iff.mp hstart
  rw [heq, string_data_append, string_data_append] at hp
  have hlen := hp.length_le
  simp at hlen

/-- Landing lemma: a root-document request is answered by `rootRoute`. -/
theorem handle_root_eq (o : FetchHandlerOptions) (a : InlinedAssets)
    (ev : FetchHandlerEvent) (h : ev.request.url = o.origin ++ "/") :
    createFetchHandler o a ev = rootRoute o a ev.request := by
  simp only [createFetchHandler]
  rw [h, if_pos (jsStartsWith_append_self o.origin "/"), if_pos rfl]

/-- Landing lemma: a template-endpoint request (other than the root URL) is
answered by `templateRoute`. -/
theorem handle_template_eq (o : FetchHandlerOptions) (a : InlinedAssets)
    (ev : FetchHandlerEvent)
    (hstart : jsStartsWith ev.request.url (o.origin ++ a.RUN_PROGRAM_PATHNAME) = true)
    (hne : ev.request.url ≠ o.origin ++ "/") :
    createFetchHandler o a ev = templateRoute o ev.request := by
  simp only [createFetchHandler]
  rw [if_pos (jsStartsWith_of_append o.origin a.RUN_PROGRAM_PATHNAME hstart),
    if_neg hne, if_pos hstart]

/-- Landing lemma: an entry-script request not caught by the template guard
is answered by `entryRoute`. -/
theorem handle_entry_eq (o : FetchHandlerOptions) (a : InlinedAssets)
    (ev : FetchHandlerEvent)
    (hstart : jsStartsWith ev.request.url (o.origin ++ "/secure.compiled.js") = true)
    (hnt : jsStartsWith ev.request.url (o.origin ++ a.RUN_PROGRAM_PATHNAME) = false) :
    createFetchHandler o a ev = entryRoute o a := by
  simp only [createFetchHandler]
  rw [if_pos (jsStartsWith_of_append o.origin "/secure.compiled.js" hstart),
    if_neg (entry_url_ne_root hstart), hnt, if_neg (by simp), if_pos hstart]

/-! ### The generated template as a plain concatenation -/

/-- `TEMPLATE_PRE` with its leading newline removed (what survives the
`.trim()`). -/
def TRIMMED_PRE : String :=
  "<!DOCTYPE html>\n<html lang=\"en\">\n<head>\n    <meta charset=\"UTF-8\">\n    <meta http-equiv=\"X-UA-Compatible\" content=\"IE=edge\">\n    <meta name=\"viewport\" content=\"width=device-width, initial-scale=1.0\">\n    <title>Sandbox</title>\n    <meta http-equiv=\"Content-Security-Policy\" content=\""

def PRE_HEAD : String :=
  "<!DOCTYPE html>\n<html lang=\"en\">\n<head>\n    <meta charset=\"UTF-8\">\n    <meta http-equiv=\"X-UA-Compatible\" content=\"IE=edge\">\n    <meta name=\"viewport\" content=\"width=device-width, initial-scale=1.0\">\n    <title>Sandbox</title>\n    "

def METAOPEN : String := "<meta http-equiv=\"Content-Security-Policy\" content=\""

def MID_TAIL : String := "\n</head>\n<body>\n    "

def SCRIPTOPEN : String := "<script entry=\""

def POST_HEAD : String := "\" id=\"root-script\""

def POST_TAIL : String :=
  " src=\"./secure.compiled.js\" type=\"module\" defer> </script>\n</body>\n</html>"

theorem string_append_assoc (a b c : String) : a ++ b ++ c = a ++ (b ++ c) := by
  apply String.ext
  simp [string_data_append, List.append_assoc]

theorem generateTemplate_eq (i s : String) :
    generateTemplate i s = TRIMMED_PRE ++ s ++ TEMPLATE_MID ++ i ++ TEMPLATE_POST := by
  have hpre : TEMPLATE_PRE = "\n" ++ TRIMMED_PRE := by decide
  unfold generateTemplate jsTrim
  apply String.ext
  show listTrim (TEMPLATE_PRE ++ s ++ TEMPLATE_MID ++ i ++ TEMPLATE_POST).data = _
  have hD : (TEMPLATE_PRE ++ s ++ TEMPLATE_MID ++ i ++ TEMPLATE_POST).data =
      '\n' :: (TRIMMED_PRE.data ++ (s.data ++ TEMPLATE_MID.data ++ i.data) ++
        TEMPLATE_POST.data) := by
    rw [hpre]
    simp [string_data_append, List.append_assoc]
  rw [hD, listTrim_of _ _ _ (by decide) (by decide) (by decide) (by decide)]
  simp [string_data_append, List.append_assoc]

/-- Substring containment of strings. -/
def strContains (s sub : String) : Prop := ∃ a b, s = a ++ sub ++ b

theorem generateTemplate_contains_meta (i s : String) :
    strContains (generateTemplate i s)
      ("<meta http-equiv=\"Content-Security-Policy\" content=\"" ++ s ++ "\"/>") := by
  refine ⟨PRE_HEAD, MID_TAIL ++ SCRIPTOPEN ++ i ++ TEMPLATE_POST, ?_⟩
  rw [generateTemplate_eq,
    show TRIMMED_PRE = PRE_HEAD ++ METAOPEN from by decide,
    show TEMPLATE_MID = "\"/>" ++ MID_TAIL ++ SCRIPTOPEN from by decide]
  simp [METAOPEN, string_append_assoc]

theorem generateTemplate_contains_script (i s : String) :
    strContains (generateTemplate i s)
      ("<script entry=\"" ++ i ++ "\" id=\"root-script\"") := by
  refine ⟨TRIMMED_PRE ++ s ++ "\"/>" ++ MID_TAIL, POST_TAIL, ?_⟩
  rw [generateTemplate_eq,
    show TEMPLATE_MID = "\"/>" ++ MID_TAIL ++ SCRIPTOPEN from by decide,
    show TEMPLATE_POST = POST_HEAD ++ POST_TAIL from by decide]
  simp [SCRIPTOPEN, POST_HEAD, string_append_assoc]

/-! ### Behaviour of templateRoute -/

theorem templateRoute_no_query (o : FetchHandlerOptions) (req : Request)
    (h : '?' ∉ req.url.data) :
    templateRoute o req = .ok (errorResponse "template endpoint must have query") := by
  have h1 := jsSplitQ_length_no_query h
  simp only [templateRoute]
  rw [if_pos (by omega)]

theorem templateRoute_missing_param (o : FetchHandlerOptions) (req : Request)
    (hq : '?' ∈ req.url.data)
    (hmiss : paramsHas (urlSearchParams ("?" ++ (jsSplitQ req.url).getD 1 "")) "csp" = false ∨
      paramsHas (urlSearchParams ("?" ++ (jsSplitQ req.url).getD 1 "")) "entry" = false) :
    templateRoute o req =
      .ok (errorResponse "template endpoint have both an \x27csp\x27 and \x27entry\x27 query") := by
  have h2 := jsSplitQ_length_query hq
  simp only [templateRoute]
  rw [if_neg (by omega)]
  rw [if_pos (show (!paramsHas (urlSearchParams ("?" ++ (jsSplitQ req.url).getD 1 "")) "csp" ||
      !paramsHas (urlSearchParams ("?" ++ (jsSplitQ req.url).getD 1 "")) "entry") = true from by
    rcases hmiss with hm | hm <;> rw [hm] <;> simp)]

theorem templateRoute_success (o : FetchHandlerOptions) (req : Request)
    (c0 e0 C E : String)
    (hq : '?' ∈ req.url.data)
    (hcsp : paramsGet (urlSearchParams ("?" ++ (jsSplitQ req.url).getD 1 "")) "csp" = some c0)
    (hent : paramsGet (urlSearchParams ("?" ++ (jsSplitQ req.url).getD 1 "")) "entry" = some e0)
    (hC : decodeURIComponent c0 = some C)
    (hE : decodeURIComponent e0 = some E) :
    templateRoute o req = .ok
      { status := 200
        statusText := "OK"
        headers := jsRecord
          [("content-type", "text/html"),
           ("content-length", toString (utf8Length (generateTemplate E C)))]
          o.inMemoryDocumentHeaders
        body := generateTemplate E C } := by
  have h2 := jsSplitQ_length_query hq
  simp only [templateRoute]
  rw [if_neg (by omega)]
  rw [if_neg (show ¬((!paramsHas (urlSearchParams ("?" ++ (jsSplitQ req.url).getD 1 "")) "csp" ||
      !paramsHas (urlSearchParams ("?" ++ (jsSplitQ req.url).getD 1 "")) "entry") = true) from by
    rw [paramsHas_of_get hcsp, paramsHas_of_get hent]; simp)]
  rw [hcsp, hent]
  simp only [jsOrEmpty, Option.getD_some]
  rw [hC, hE]

/-- A `.error` from `templateRoute` can only come from `decodeURIComponent`
rejecting one of the two parameters. -/
theorem templateRoute_error (o : FetchHandlerOptions) (req : Request) (e : String)
    (h : templateRoute o req = .error e) :
    decodeURIComponent (jsOrEmpty (paramsGet
      (urlSearchParams ("?" ++ (jsSplitQ req.url).getD 1 "")) "csp")) = none ∨
    decodeURIComponent (jsOrEmpty (paramsGet
      (urlSearchParams ("?" ++ (jsSplitQ req.url).getD 1 "")) "entry")) = none := by
  simp only [templateRoute] at h
  split at h
  · exact absurd h (by simp)
  · split at h
    · exact absurd h (by simp)
    · split at h
      next heq => exact Or.inl heq
      next C heq =>
        split at h
        next heq2 => exact Or.inr heq2
        next E heq2 => exact absurd h (by simp)

/-! ### Router fixtures -/

/-- Concrete handler options with a rejecting network, used by concrete
router inputs. -/
def wOptions : FetchHandlerOptions :=
  { origin := "https://donuts.com"
    getClientFile := fun _ _ => none
    networkFetch := netDown
    inMemoryDocumentHeaders := [] }

/-- Concrete inlined assets (`RUN_PROGRAM_PATHNAME` as pinned by the
repository's tests). -/
def wAssets : InlinedAssets :=
  { IndexHtml := "<p>idx</p>"
    INDEX_HTML_LENGTH := 10
    SecureMjs := "export default 1"
    SECURE_MJS_LENGTH := 16
    RUN_PROGRAM_PATHNAME := "/runProgram" }

/-! ### Claims about the router -/

/-- Claim C8.  Root-document and entry-script routes are network-first with
an in-memory fallback: the network response is returned verbatim whatever
its status; on rejection a 200 response is synthesized from the frozen
asset (`text/html` for the root document, `text/javascript` for the entry
script) with the precomputed content-length, the extra configured headers
and the appended `X-Cache-Hit` header; the client cache resolver is never
consulted (the result is unchanged under any replacement of it). -/
theorem root_and_entry_network_first (o : FetchHandlerOptions) (a : InlinedAssets)
    (ev : FetchHandlerEvent) :
    (ev.request.url = o.origin ++ "/" →
      (∀ r, o.networkFetch (.req ev.request) = .ok r → createFetchHandler o a ev = .ok r) ∧
      (∀ e, o.networkFetch (.req ev.request) = .error e →
        createFetchHandler o a ev = .ok (cacheHit (inMemoryHtmlResponse o a)) ∧
        (inMemoryHtmlResponse o a).status = 200 ∧
        (inMemoryHtmlResponse o a).body = a.IndexHtml ∧
        (inMemoryHtmlResponse o a).headers =
          jsRecord [("content-type", "text/html"),
            ("content-length", toString a.INDEX_HTML_LENGTH)] o.inMemoryDocumentHeaders ∧
        (cacheHit (inMemoryHtmlResponse o a)).headers =
          (inMemoryHtmlResponse o a).headers ++ [serviceWorkerCacheHitHeader]) ∧
      (∀ cf, createFetchHandler { o with getClientFile := cf } a ev =
        createFetchHandler o a ev)) ∧
    (jsStartsWith ev.request.url (o.origin ++ "/secure.compiled.js") = true →
      jsStartsWith ev.request.url (o.origin ++ a.RUN_PROGRAM_PATHNAME) = false →
      (∀ r, o.networkFetch (.url (o.origin ++ "/secure.compiled.js")) = .ok r →
        createFetchHandler o a ev = .ok r) ∧
      (∀ e, o.networkFetch (.url (o.origin ++ "/secure.compiled.js")) = .error e →
        createFetchHandler o a ev = .ok (cacheHit (inMemorySecureResponse o a)) ∧
        (inMemorySecureResponse o a).status = 200 ∧
        (inMemorySecureResponse o a).body = a.SecureMjs ∧
        (inMemorySecureResponse o a).headers =
          jsRecord [("content-type", "text/javascript"),
            ("content-length", toString a.SECURE_MJS_LENGTH)] o.inMemoryDocumentHeaders ∧
        (cacheHit (inMemorySecureResponse o a)).headers =
          (inMemorySecureResponse o a).headers ++ [serviceWorkerCacheHitHeader]) ∧
      (∀ cf, createFetchHandler { o with getClientFile := cf } a ev =
        createFetchHandler o a ev)) := by
  constructor
  · intro h
    have hr := handle_root_eq o a ev h
    refine ⟨?_, ?_, ?_⟩
    · intro r hok
      rw [hr]
      unfold rootRoute
      rw [hok]
    · intro e herr
      refine ⟨?_, rfl, rfl, rfl, rfl⟩
      rw [hr]
      unfold rootRoute
      rw [herr]
    · intro cf
      rw [handle_root_eq { o with getClientFile := cf } a ev h, hr]
      rfl
  · intro hs hnt
    have he := handle_entry_eq o a ev hs hnt
    refine ⟨?_, ?_, ?_⟩
    · intro r hok
      rw [he]
      unfold entryRoute
      rw [hok]
    · intro e herr
      refine ⟨?_, rfl, rfl, rfl, rfl⟩
      rw [he]
      unfold entryRoute
      rw [herr]
    · intro cf
      rw [handle_entry_eq { o with getClientFile := cf } a ev hs hnt, he]
      rfl

/-- Witness for C8: with a rejecting network, the root document and entry
script are served from the frozen in-memory assets with the cache-hit
marker. -/
theorem root_and_entry_network_first_witness :
    (FetchHandlerEvent.mk (Request.mk "https://donuts.com/" []) "" "").request.url =
      wOptions.origin ++ "/" ∧
    wOptions.networkFetch (.req (Request.mk "https://donuts.com/" [])) =
      .error "net-reject" ∧
    createFetchHandler wOptions wAssets
      (FetchHandlerEvent.mk (Request.mk "https://donuts.com/" []) "" "") =
      .ok (cacheHit (inMemoryHtmlResponse wOptions wAssets)) ∧
    jsStartsWith "https://donuts.com/secure.compiled.js?v=2"
      (wOptions.origin ++ "/secure.compiled.js") = true ∧
    createFetchHandler wOptions wAssets
      (FetchHandlerEvent.mk (Request.mk "https://donuts.com/secure.compiled.js?v=2" []) "" "") =
      .ok (cacheHit (inMemorySecureResponse wOptions wAssets)) :=
  ⟨by decide, rfl,
   (((root_and_entry_network_first wOptions wAssets
       (FetchHandlerEvent.mk (Request.mk "https://donuts.com/" []) "" "")).1
     (by decide)).2.1 "net-reject" rfl).1,
   by decide,
   (((root_and_entry_network_first wOptions wAssets
       (FetchHandlerEvent.mk (Request.mk "https://donuts.com/secure.compiled.js?v=2" []) "" "")).2
     (by decide) (by decide)).2.1 "net-reject" rfl).1⟩

/-- Claim C10.  Any request whose URL merely starts with the entry-script
prefix (and is not captured by the template guard) is answered by
`entryRoute`, which fetches the fixed entry-script URL string instead of
the incoming request; two such requests against the same options therefore
receive identical results, whatever their URL remainder, query or
headers. -/
theorem entry_script_prefix_insensitivity (o : FetchHandlerOptions) (a : InlinedAssets)
    (ev1 ev2 : FetchHandlerEvent)
    (h1 : jsStartsWith ev1.request.url (o.origin ++ "/secure.compiled.js") = true)
    (h1t : jsStartsWith ev1.request.url (o.origin ++ a.RUN_PROGRAM_PATHNAME) = false)
    (h2 : jsStartsWith ev2.request.url (o.origin ++ "/secure.compiled.js") = true)
    (h2t : jsStartsWith ev2.request.url (o.origin ++ a.RUN_PROGRAM_PATHNAME) = false) :
    createFetchHandler o a ev1 = entryRoute o a ∧
    createFetchHandler o a ev2 = entryRoute o a ∧
    createFetchHandler o a ev1 = createFetchHandler o a ev2 ∧
    entryRoute o a =
      (match o.networkFetch (.url (o.origin ++ "/secure.compiled.js")) with
       | .ok r => .ok r
       | .error _ => .ok (cacheHit (inMemorySecureResponse o a))) := by
  have e1 := handle_entry_eq o a ev1 h1 h1t
  have e2 := handle_entry_eq o a ev2 h2 h2t
  exact ⟨e1, e2, by rw [e1, e2], rfl⟩

/-- Witness for C10: two entry-script requests differing in query string,
extra path, headers and client ids receive the same response. -/
theorem entry_script_prefix_insensitivity_witness :
    jsStartsWith "https://donuts.com/secure.compiled.js?alpha=1"
      (wOptions.origin ++ "/secure.compiled.js") = true ∧
    jsStartsWith "https://donuts.com/secure.compiled.js/nested"
      (wOptions.origin ++ "/secure.compiled.js") = true ∧
    createFetchHandler wOptions wAssets
      (FetchHandlerEvent.mk
        (Request.mk "https://donuts.com/secure.compiled.js?alpha=1" [("Sw-Policy", "2")])
        "client-a" "") =
    createFetchHandler wOptions wAssets
      (FetchHandlerEvent.mk
        (Request.mk "https://donuts.com/secure.compiled.js/nested" []) "" "client-b") :=
  ⟨by decide, by decide,
   (entry_script_prefix_insensitivity wOptions wAssets
     (FetchHandlerEvent.mk
       (Request.mk "https://donuts.com/secure.compiled.js?alpha=1" [("Sw-Policy", "2")])
       "client-a" "")
     (FetchHandlerEvent.mk
       (Request.mk "https://donuts.com/secure.compiled.js/nested" []) "" "client-b")
     (by decide) (by decide) (by decide) (by decide)).2.2.1⟩

/-- Claim C7 (amended).  A same-origin request to the template endpoint
lacking a query string, or whose query lacks the `csp` or the `entry`
parameter, yields a 500 response with a descriptive body; the response is
built by `errorResponse` and therefore carries the `Sw-Net-Err: 1` header;
neither the network nor the cache is consulted (the result is unchanged
under any replacement of both resolvers). -/
theorem template_usage_error_resolution (o : FetchHandlerOptions) (a : InlinedAssets)
    (ev : FetchHandlerEvent)
    (hRP : 2 ≤ a.RUN_PROGRAM_PATHNAME.length)
    (hstart : jsStartsWith ev.request.url (o.origin ++ a.RUN_PROGRAM_PATHNAME) = true) :
    ('?' ∉ ev.request.url.data →
      createFetchHandler o a ev = .ok (errorResponse "template endpoint must have query") ∧
      (errorResponse "template endpoint must have query").status = 500 ∧
      (errorResponse "template endpoint must have query").body =
        "template endpoint must have query" ∧
      headersGet (errorResponse "template endpoint must have query").headers
        serviceWorkerErrorCatchHeader = some "1") ∧
    ('?' ∈ ev.request.url.data →
      (paramsHas (urlSearchParams ("?" ++ (jsSplitQ ev.request.url).getD 1 "")) "csp" = false ∨
       paramsHas (urlSearchParams ("?" ++ (jsSplitQ ev.request.url).getD 1 "")) "entry" = false) →
      createFetchHandler o a ev =
        .ok (errorResponse "template endpoint have both an \x27csp\x27 and \x27entry\x27 query") ∧
      (errorResponse "template endpoint have both an \x27csp\x27 and \x27entry\x27 query").status =
        500 ∧
      headersGet
        (errorResponse "template endpoint have both an \x27csp\x27 and \x27entry\x27 query").headers
        serviceWorkerErrorCatchHeader = some "1") ∧
    (∀ nf cf, createFetchHandler { o with networkFetch := nf, getClientFile := cf } a ev =
      createFetchHandler o a ev) := by
  have hne := template_url_ne_root hRP hstart
  have ht := handle_template_eq o a ev hstart hne
  refine ⟨?_, ?_, ?_⟩
  · intro h
    exact ⟨by rw [ht, templateRoute_no_query o ev.request h], rfl, rfl, rfl⟩
  · intro hq hmiss
    exact ⟨by rw [ht, templateRoute_missing_param o ev.request hq hmiss], rfl, rfl⟩
  · intro nf cf
    rw [handle_template_eq { o with networkFetch := nf, getClientFile := cf } a ev hstart hne, ht]
    rfl

/-- Witness for C7: a template request with a query that carries only
`entry` is refused with the 500 usage error, which carries `Sw-Net-Err`. -/
theorem template_usage_error_resolution_witness :
    2 ≤ wAssets.RUN_PROGRAM_PATHNAME.length ∧
    jsStartsWith "https://donuts.com/runProgram?entry=app.mjs"
      (wOptions.origin ++ wAssets.RUN_PROGRAM_PATHNAME) = true ∧
    ('?' ∈ ("https://donuts.com/runProgram?entry=app.mjs" : String).data →
      (paramsHas (urlSearchParams
         ("?" ++ (jsSplitQ "https://donuts.com/runProgram?entry=app.mjs").getD 1 "")) "csp" =
           false ∨
       paramsHas (urlSearchParams
         ("?" ++ (jsSplitQ "https://donuts.com/runProgram?entry=app.mjs").getD 1 "")) "entry" =
           false) →
      createFetchHandler wOptions wAssets
        (FetchHandlerEvent.mk (Request.mk "https://donuts.com/runProgram?entry=app.mjs" []) "" "") =
        .ok (errorResponse "template endpoint have both an \x27csp\x27 and \x27entry\x27 query") ∧
      (errorResponse "template endpoint have both an \x27csp\x27 and \x27entry\x27 query").status =
        500 ∧
      headersGet
        (errorResponse "template endpoint have both an \x27csp\x27 and \x27entry\x27 query").headers
        serviceWorkerErrorCatchHeader = some "1") ∧
    ('?' ∈ ("https://donuts.com/runProgram?entry=app.mjs" : String).data ∧
     paramsHas (urlSearchParams
       ("?" ++ (jsSplitQ "https://donuts.com/runProgram?entry=app.mjs").getD 1 "")) "csp" =
         false) :=
  ⟨by decide, by decide,
   (template_usage_error_resolution wOptions wAssets
     (FetchHandlerEvent.mk (Request.mk "https://donuts.com/runProgram?entry=app.mjs" []) "" "")
     (by decide) (by decide)).2.1,
   by decide, by decide⟩

/-- Counterexample for C7 as stated: the 500 usage-error response for a
query-less template request does carry the `Sw-Net-Err` header (the router
reuses the generic `errorResponse` helper), contradicting the claim that it
carries none. -/
theorem template_usage_error_header_counterexample :
    createFetchHandler wOptions wAssets
      (FetchHandlerEvent.mk (Request.mk "https://donuts.com/runProgram" []) "" "") =
      .ok (errorResponse "template endpoint must have query") ∧
    headersGet (errorResponse "template endpoint must have query").headers
      serviceWorkerErrorCatchHeader = some "1" := by
  decide

/-- Claim C9.  A template-endpoint request whose query carries `csp` and
`entry` values decoding to `C` and `E` receives a 200 `text/html` response
whose body is the generated template, whose content-length header value is
the body\x27s UTF-8 byte length, and whose body contains exactly the
Content-Security-Policy meta tag for `C` and the `root-script` script tag
for `E`; neither the network nor the cache is consulted. -/
theorem template_success_resolution (o : FetchHandlerOptions) (a : InlinedAssets)
    (ev : FetchHandlerEvent) (c0 e0 C E : String)
    (hRP : 2 ≤ a.RUN_PROGRAM_PATHNAME.length)
    (hstart : jsStartsWith ev.request.url (o.origin ++ a.RUN_PROGRAM_PATHNAME) = true)
    (hq : '?' ∈ ev.request.url.data)
    (hcsp : paramsGet (urlSearchParams ("?" ++ (jsSplitQ ev.request.url).getD 1 "")) "csp" =
      some c0)
    (hent : paramsGet (urlSearchParams ("?" ++ (jsSplitQ ev.request.url).getD 1 "")) "entry" =
      some e0)
    (hC : decodeURIComponent c0 = some C)
    (hE : decodeURIComponent e0 = some E) :
    createFetchHandler o a ev = .ok
      { status := 200
        statusText := "OK"
        headers := jsRecord
          [("content-type", "text/html"),
           ("content-length", toString (utf8Length (generateTemplate E C)))]
          o.inMemoryDocumentHeaders
        body := generateTemplate E C } ∧
    strContains (generateTemplate E C)
      ("<meta http-equiv=\"Content-Security-Policy\" content=\"" ++ C ++ "\"/>") ∧
    strContains (generateTemplate E C)
      ("<script entry=\"" ++ E ++ "\" id=\"root-script\"") ∧
    (∀ nf cf, createFetchHandler { o with networkFetch := nf, getClientFile := cf } a ev =
      createFetchHandler o a ev) := by
  have hne := template_url_ne_root hRP hstart
  have ht := handle_template_eq o a ev hstart hne
  refine ⟨by rw [ht, templateRoute_success o ev.request c0 e0 C E hq hcsp hent hC hE],
    generateTemplate_contains_meta E C, generateTemplate_contains_script E C, ?_⟩
  intro nf cf
  rw [handle_template_eq { o with networkFetch := nf, getClientFile := cf } a ev hstart hne, ht]
  rfl

/-- Witness for C9: `csp=base-uri&entry=app.mjs`. -/
theorem template_success_resolution_witness :
    paramsGet (urlSearchParams
      ("?" ++ (jsSplitQ "https://donuts.com/runProgram?csp=base-uri&entry=app.mjs").getD 1 ""))
      "csp" = some "base-uri" ∧
    decodeURIComponent "base-uri" = some "base-uri" ∧
    decodeURIComponent "app.mjs" = some "app.mjs" ∧
    (createFetchHandler wOptions wAssets
      (FetchHandlerEvent.mk
        (Request.mk "https://donuts.com/runProgram?csp=base-uri&entry=app.mjs" []) "" "") = .ok
      { status := 200
        statusText := "OK"
        headers := jsRecord
          [("content-type", "text/html"),
           ("content-length", toString (utf8Length (generateTemplate "app.mjs" "base-uri")))]
          wOptions.inMemoryDocumentHeaders
        body := generateTemplate "app.mjs" "base-uri" } ∧
    strContains (generateTemplate "app.mjs" "base-uri")
      ("<meta http-equiv=\"Content-Security-Policy\" content=\"" ++ "base-uri" ++ "\"/>") ∧
    strContains (generateTemplate "app.mjs" "base-uri")
      ("<script entry=\"" ++ "app.mjs" ++ "\" id=\"root-script\"") ∧
    (∀ nf cf, createFetchHandler
      { wOptions with networkFetch := nf, getClientFile := cf } wAssets
      (FetchHandlerEvent.mk
        (Request.mk "https://donuts.com/runProgram?csp=base-uri&entry=app.mjs" []) "" "") =
      createFetchHandler wOptions wAssets
        (FetchHandlerEvent.mk
          (Request.mk "https://donuts.com/runProgram?csp=base-uri&entry=app.mjs" []) "" ""))) :=
  ⟨by decide, by decide, by decide,
   template_success_resolution wOptions wAssets
     (FetchHandlerEvent.mk
       (Request.mk "https://donuts.com/runProgram?csp=base-uri&entry=app.mjs" []) "" "")
     "base-uri" "app.mjs" "base-uri" "app.mjs"
     (by decide) (by decide) (by decide) (by decide) (by decide) (by decide) (by decide)⟩

/-- Claim C6 (amended).  A rejection of the handler\x27s returned promise can
only arise on the test-probe path (where a `networkFetch` rejection is
forwarded unhandled) or on the template path (where `decodeURIComponent`
throws on a malformed `csp` or `entry` value); on every other path — and on
these paths in the absence of those two conditions — the handler resolves to
a constructed `Response`.  `fetchCore` always produces a `Response` by
construction (given that the cache resolver never rejects). -/
theorem handler_rejection_characterization (o : FetchHandlerOptions) (a : InlinedAssets)
    (ev : FetchHandlerEvent) (e : String)
    (h : createFetchHandler o a ev = .error e) :
    (jsStartsWith ev.request.url (o.origin ++ "/test.mjs") = true ∧
     o.networkFetch (.req ev.request) = .error e) ∨
    (jsStartsWith ev.request.url (o.origin ++ a.RUN_PROGRAM_PATHNAME) = true ∧
     (decodeURIComponent (jsOrEmpty (paramsGet
        (urlSearchParams ("?" ++ (jsSplitQ ev.request.url).getD 1 "")) "csp")) = none ∨
      decodeURIComponent (jsOrEmpty (paramsGet
        (urlSearchParams ("?" ++ (jsSplitQ ev.request.url).getD 1 "")) "entry")) = none)) := by
  simp only [createFetchHandler] at h
  by_cases g0 : jsStartsWith ev.request.url o.origin = true
  · rw [if_pos g0] at h
    by_cases g1 : ev.request.url = o.origin ++ "/"
    · rw [if_pos g1] at h
      unfold rootRoute at h
      cases hnf : o.networkFetch (.req ev.request) <;> rw [hnf] at h <;> exact absurd h (by simp)
    · rw [if_neg g1] at h
      by_cases g2 : jsStartsWith ev.request.url (o.origin ++ a.RUN_PROGRAM_PATHNAME) = true
      · rw [if_pos g2] at h
        exact Or.inr ⟨g2, templateRoute_error o ev.request e h⟩
      · rw [if_neg g2] at h
        by_cases g3 : jsStartsWith ev.request.url (o.origin ++ "/secure.compiled.js") = true
        · rw [if_pos g3] at h
          unfold entryRoute at h
          cases hnf : o.networkFetch (.url (o.origin ++ "/secure.compiled.js")) <;>
            rw [hnf] at h <;> exact absurd h (by simp)
        · rw [if_neg g3] at h
          by_cases g4 : jsStartsWith ev.request.url (o.origin ++ "/test.mjs") = true
          · rw [if_pos g4] at h
            exact Or.inl ⟨g4, h⟩
          · rw [if_neg g4] at h
            exact absurd h (by simp)
  · rw [if_neg g0] at h
    exact absurd h (by simp)

/-- Witness for C6: a rejecting network on the test-probe path makes the
handler reject, and the characterization attributes it to that path. -/
theorem handler_rejection_characterization_witness :
    createFetchHandler wOptions wAssets
      (FetchHandlerEvent.mk (Request.mk "https://donuts.com/test.mjs" []) "" "") =
      .error "net-reject" ∧
    ((jsStartsWith "https://donuts.com/test.mjs" (wOptions.origin ++ "/test.mjs") = true ∧
      wOptions.networkFetch (.req (Request.mk "https://donuts.com/test.mjs" [])) =
        .error "net-reject") ∨
     (jsStartsWith "https://donuts.com/test.mjs"
        (wOptions.origin ++ wAssets.RUN_PROGRAM_PATHNAME) = true ∧
      (decodeURIComponent (jsOrEmpty (paramsGet
         (urlSearchParams ("?" ++ (jsSplitQ "https://donuts.com/test.mjs").getD 1 "")) "csp")) =
           none ∨
       decodeURIComponent (jsOrEmpty (paramsGet
         (urlSearchParams ("?" ++ (jsSplitQ "https://donuts.com/test.mjs").getD 1 "")) "entry")) =
           none))) :=
  ⟨by decide,
   handler_rejection_characterization wOptions wAssets
     (FetchHandlerEvent.mk (Request.mk "https://donuts.com/test.mjs" []) "" "")
     "net-reject" (by decide)⟩

/-- Counterexample for C6 as stated: on the test-probe path with a rejecting
network, the handler\x27s promise rejects instead of resolving to a
constructed `Response`. -/
theorem handler_total_claim_counterexample :
    createFetchHandler wOptions wAssets
      (FetchHandlerEvent.mk (Request.mk "https://donuts.com/test.mjs" []) "" "") =
      .error "net-reject" ∧
    (createFetchHandler wOptions wAssets
      (FetchHandlerEvent.mk (Request.mk "https://donuts.com/test.mjs" []) "" "")).isOk =
      false := by
  decide

end Sandbox
